import Mathlib

/-!
Shallow embedding of the gst-gzdec streaming decompression element
(src/gstgzdec.c, src/gstgzdec.h).

The element state (`struct _GstGzdec`) holds an in-progress flag, one
zlib stream, one bzlib stream and a triple of function pointers selecting
the active back-end; the triple is always installed as a whole, so it is
modelled by the `Backend` tag.  The native decoders (`inflate`,
`BZ2_bzDecompress`) are external library code; each call is abstracted by a
`DecodeStep` oracle entry giving the bytes consumed from `avail_in`, the
bytes produced into `avail_out`, and the class of the native return code.
The drain loops take the oracle trace as fuel: `none` means the trace ran
out while the C loop would still be running.

Byte contents are irrelevant to the verified properties, so an output
buffer records its stamped `offset` and the list of segment lengths.
-/

set_option autoImplicit false

namespace Gzdec

/-- `OUT_BUF_SIZE` from gstgzdec.h. -/
def OUT_BUF_SIZE : Nat := 4096

/-- The fields of a native stream object (`z_stream` / `bz_stream`) that the
element code reads or writes across calls: the remaining input of the
current call and the cumulative decompressed-byte counter maintained by the
library (`total_out`). -/
structure StreamState where
  avail_in : Nat
  total_out : Nat
deriving DecidableEq, Repr

/-- Classes of the native decode return codes.  For zlib: `ok` = `Z_OK`,
`stream_end` = `Z_STREAM_END`, `buf_error` = `Z_BUF_ERROR`, `fatal` = any
other code (the `default:` arm of the switch).  For bzlib: `ok` = `BZ_OK`,
`stream_end` = `BZ_STREAM_END`, and both `buf_error` and `fatal` fall into
the `!= BZ_OK && != BZ_STREAM_END` error test. -/
inductive Code
| ok
| stream_end
| buf_error
| fatal
deriving DecidableEq, Repr

/-- One native decode call, abstracted: how many input bytes it consumed,
how many output bytes it produced, and the class of its return code.
`consumed` is clamped to the available input and `produced` to the segment
size when the step is applied. -/
structure DecodeStep where
  consumed : Nat
  produced : Nat
  code : Code
deriving DecidableEq, Repr

/-- GstFlowReturn values reachable in this element: `GST_FLOW_OK`,
`GST_FLOW_EOS` (defined in gstgzdec.h as `GST_FLOW_CUSTOM_SUCCESS`),
`GST_FLOW_ERROR`, `GST_FLOW_NOT_NEGOTIATED`. -/
inductive Flow
| ok
| eos
| error
| not_negotiated
deriving DecidableEq, Repr

/-- An assembled output `GstBuffer`: the stamped `GST_BUFFER_OFFSET` and
the lengths of the appended memory segments, in order. -/
structure OutBuf where
  offset : Nat
  segments : List Nat
deriving DecidableEq, Repr

/-- The two back-end function-pointer triples installed by
`gst_gzdec_init` / `gst_gzdec_sink_event`. -/
inductive Backend
| gzip
| bzip2
deriving DecidableEq, Repr

/-- The modelled fields of `struct _GstGzdec`. -/
structure GstGzdec where
  in_progress : Bool
  zlib_stream : StreamState
  bzlib_stream : StreamState
  backend : Backend
deriving DecidableEq, Repr

/-- The drain loop of `zlib_encode` (gstgzdec.c lines 300-325):
`while (avail_in > 0 && zlib_status != Z_STREAM_END)`.  Each iteration
allocates a fresh `OUT_BUF_SIZE` segment, calls `inflate` (one oracle
step), and on a non-fatal code resizes the segment to
`OUT_BUF_SIZE - avail_out` (the produced count) and appends it to the
output buffer unconditionally.  On the `default:` arm it calls
`inflateEnd` and jumps to `decompress_error` (final `Bool` = teardown
happened).  `none` = the oracle trace ran out with the loop still
running. -/
def zlibDrainLoop (trace : List DecodeStep) (st : StreamState) (segs : List Nat)
    (status : Code) : Option (StreamState × List Nat × Code × Bool) :=
  if 0 < st.avail_in ∧ status ≠ Code.stream_end then
    match trace with
    | [] => none
    | step :: rest =>
      let consumed := min step.consumed st.avail_in
      let produced := min step.produced OUT_BUF_SIZE
      let st' : StreamState :=
        { avail_in := st.avail_in - consumed, total_out := st.total_out + produced }
      if step.code = Code.fatal then
        some (st', segs, Code.fatal, true)
      else
        zlibDrainLoop rest st' (segs ++ [produced]) step.code
  else
    some (st, segs, status, false)

/-- The drain loop of `bzlib_encode` (gstgzdec.c lines 404-425): identical
shape, but any code other than `BZ_OK` / `BZ_STREAM_END` takes the error
path (`BZ2_bzDecompressEnd` then `goto decompress_error`). -/
def bzlibDrainLoop (trace : List DecodeStep) (st : StreamState) (segs : List Nat)
    (status : Code) : Option (StreamState × List Nat × Code × Bool) :=
  if 0 < st.avail_in ∧ status ≠ Code.stream_end then
    match trace with
    | [] => none
    | step :: rest =>
      let consumed := min step.consumed st.avail_in
      let produced := min step.produced OUT_BUF_SIZE
      let st' : StreamState :=
        { avail_in := st.avail_in - consumed, total_out := st.total_out + produced }
      if step.code = Code.ok ∨ step.code = Code.stream_end then
        bzlibDrainLoop rest st' (segs ++ [produced]) step.code
      else
        some (st', segs, step.code, true)
  else
    some (st, segs, status, false)

/-- `zlib_encode` (gstgzdec.c lines 278-356).  Sets `avail_in` from the
input size, stamps `GST_BUFFER_OFFSET (*outbuf) = zlib_stream.total_out`
(line 297), runs the drain loop, and returns `GST_FLOW_EOS` on
`Z_STREAM_END`, otherwise `GST_FLOW_OK` — including on the
`decompress_error` path, where the local `ret`, initialised to
`GST_FLOW_OK`, is returned without ever being reassigned.  The result's
final `Bool` records whether `inflateEnd` was called inside the call.
Buffer/memory mapping is modelled as succeeding. -/
def zlib_encode (trace : List DecodeStep) (f : GstGzdec) (inbufLen : Nat) :
    Option (Flow × OutBuf × GstGzdec × Bool) :=
  let offset := f.zlib_stream.total_out
  let st0 : StreamState := { avail_in := inbufLen, total_out := f.zlib_stream.total_out }
  match zlibDrainLoop trace st0 [] Code.ok with
  | none => none
  | some (st1, segs, status, torn) =>
    let f' := { f with zlib_stream := st1 }
    let outbuf : OutBuf := { offset := offset, segments := segs }
    if torn then
      some (Flow.ok, outbuf, f', true)
    else if status = Code.stream_end then
      some (Flow.eos, outbuf, f', false)
    else
      some (Flow.ok, outbuf, f', false)

/-- `bzlib_encode` (gstgzdec.c lines 382-456).  Same shape as
`zlib_encode`, except: the stamped offset is read from
`filter->zlib_stream.total_out` (line 401) — the zlib stream's counter,
not the bzlib one — and the error path sets `ret = GST_FLOW_ERROR`
(line 417) before jumping to `decompress_error`. -/
def bzlib_encode (trace : List DecodeStep) (f : GstGzdec) (inbufLen : Nat) :
    Option (Flow × OutBuf × GstGzdec × Bool) :=
  let offset := f.zlib_stream.total_out
  let st0 : StreamState := { avail_in := inbufLen, total_out := f.bzlib_stream.total_out }
  match bzlibDrainLoop trace st0 [] Code.ok with
  | none => none
  | some (st1, segs, status, torn) =>
    let f' := { f with bzlib_stream := st1 }
    let outbuf : OutBuf := { offset := offset, segments := segs }
    if torn then
      some (Flow.error, outbuf, f', true)
    else if status = Code.stream_end then
      some (Flow.eos, outbuf, f', false)
    else
      some (Flow.ok, outbuf, f', false)

/-- `zlib_init_encoder` (gstgzdec.c lines 251-268): zeroes `avail_in`,
calls `inflateInit2` — which per the zlib contract resets `total_out`
to 0 — and returns `TRUE` unconditionally (the `inflateInit2` return
value is discarded). -/
def zlib_init_encoder (f : GstGzdec) : Bool × GstGzdec :=
  (true, { f with zlib_stream := { avail_in := 0, total_out := 0 } })

/-- `zlib_free_encoder` (gstgzdec.c lines 270-276): `inflateEnd` releases
native state, which is outside the modelled fields; returns `TRUE`. -/
def zlib_free_encoder (f : GstGzdec) : GstGzdec := f

/-- `bzlib_init_encoder` (gstgzdec.c lines 358-372): zeroes `avail_in`,
calls `BZ2_bzDecompressInit` — which resets the stream's counters — and
returns `TRUE` unconditionally (the init return value is discarded). -/
def bzlib_init_encoder (f : GstGzdec) : Bool × GstGzdec :=
  (true, { f with bzlib_stream := { avail_in := 0, total_out := 0 } })

/-- `bzlib_free_encoder` (gstgzdec.c lines 374-380). -/
def bzlib_free_encoder (f : GstGzdec) : GstGzdec := f

/-- A back-end function-pointer triple (`init_encoder`, `free_encoder`,
`encode` fields of `struct _GstGzdec`). -/
structure BackendOps where
  init : GstGzdec → Bool × GstGzdec
  free : GstGzdec → GstGzdec
  encode : List DecodeStep → GstGzdec → Nat → Option (Flow × OutBuf × GstGzdec × Bool)

/-- The two triples that the source ever installs. -/
def backendOps : Backend → BackendOps
| Backend.gzip =>
  { init := zlib_init_encoder, free := zlib_free_encoder, encode := zlib_encode }
| Backend.bzip2 =>
  { init := bzlib_init_encoder, free := bzlib_free_encoder, encode := bzlib_encode }

/-- Observable outcome of one `gst_gzdec_chain` call: the `GstFlowReturn`,
the buffer handed to `gst_pad_push` (if any), whether an end-of-stream
event was pushed (the source contains no `gst_pad_push_event` call, so
this is `false` on every path), whether `gst_buffer_unref (buf)` ran,
whether `free_encoder` was invoked by the chain function, whether the
native decoder was torn down inside `encode`, and the final element
state. -/
structure ChainResult where
  ret : Flow
  pushedBuf : Option OutBuf
  eosEventPushed : Bool
  inputReleased : Bool
  freeCalled : Bool
  encodeTornDown : Bool
  filter : GstGzdec
deriving DecidableEq, Repr

/-- `gst_gzdec_chain` (gstgzdec.c lines 175-207), generic in the installed
function-pointer triple exactly as the source dispatches through
`filter->init_encoder` / `filter->encode` / `filter->free_encoder`:
if not `in_progress`, call `init_encoder` and on failure take the
`not_supported` path (unref input, return `GST_FLOW_NOT_NEGOTIATED`);
otherwise set `in_progress`, call `encode`, unref the input, push the
output buffer, and on `GST_FLOW_EOS` call `free_encoder` and clear
`in_progress`. -/
def gst_gzdec_chain_gen (ops : BackendOps) (trace : List DecodeStep)
    (f0 : GstGzdec) (inbufLen : Nat) : Option ChainResult :=
  match (if f0.in_progress then (true, f0) else ops.init f0) with
  | (false, f1) =>
    some { ret := Flow.not_negotiated, pushedBuf := none, eosEventPushed := false,
           inputReleased := true, freeCalled := false, encodeTornDown := false,
           filter := f1 }
  | (true, f1) =>
    let f2 := { f1 with in_progress := true }
    match ops.encode trace f2 inbufLen with
    | none => none
    | some (ret, outbuf, f3, torn) =>
      let isEos := ret == Flow.eos
      let f4 := if isEos then { (ops.free f3) with in_progress := false } else f3
      some { ret := ret, pushedBuf := some outbuf, eosEventPushed := false,
             inputReleased := true, freeCalled := isEos, encodeTornDown := torn,
             filter := f4 }

/-- `gst_gzdec_chain` with the concrete triple selected by the element's
current back-end. -/
def gst_gzdec_chain (trace : List DecodeStep) (f : GstGzdec) (inbufLen : Nat) :
    Option ChainResult :=
  gst_gzdec_chain_gen (backendOps f.backend) trace f inbufLen

/-- The `GST_EVENT_CAPS` arm of `gst_gzdec_sink_event` (gstgzdec.c lines
215-242): compare the caps structure name against the two known labels in
order, install the matching triple and return `TRUE`, else return `FALSE`
leaving the element untouched.  The source performs no `in_progress`
check in this handler. -/
def gst_gzdec_sink_event_caps (capsName : String) (f : GstGzdec) : Bool × GstGzdec :=
  if capsName = "application/x-gzip" then
    (true, { f with backend := Backend.gzip })
  else if capsName = "application/x-bzip2" then
    (true, { f with backend := Backend.bzip2 })
  else
    (false, f)

/-- The state established by `gst_gzdec_init` (gstgzdec.c lines 150-172):
streams zeroed by `memset`, `in_progress = FALSE`, and the zlib triple
installed as the default. -/
def gst_gzdec_init_filter : GstGzdec :=
  { in_progress := false
  , zlib_stream := { avail_in := 0, total_out := 0 }
  , bzlib_stream := { avail_in := 0, total_out := 0 }
  , backend := Backend.gzip }

/-- A session that is mid-stream on the gzip back-end with no output yet. -/
def gzLiveSession : GstGzdec :=
  { in_progress := true
  , zlib_stream := { avail_in := 0, total_out := 0 }
  , bzlib_stream := { avail_in := 0, total_out := 0 }
  , backend := Backend.gzip }

/-- A session that is mid-stream on the bzip2 back-end with no output yet. -/
def bzLiveSession : GstGzdec :=
  { in_progress := true
  , zlib_stream := { avail_in := 0, total_out := 0 }
  , bzlib_stream := { avail_in := 0, total_out := 0 }
  , backend := Backend.bzip2 }

/-- A fresh element whose back-end has been switched to bzip2 by a caps
event, before the first data buffer. -/
def bzSession : GstGzdec :=
  { in_progress := false
  , zlib_stream := { avail_in := 0, total_out := 0 }
  , bzlib_stream := { avail_in := 0, total_out := 0 }
  , backend := Backend.bzip2 }

/-- The element state after `bzSession` has processed one 5-byte buffer
that decompressed to 10 bytes. -/
def bzSessionAfter1 : GstGzdec :=
  { in_progress := true
  , zlib_stream := { avail_in := 0, total_out := 0 }
  , bzlib_stream := { avail_in := 0, total_out := 10 }
  , backend := Backend.bzip2 }

/-- A back-end triple whose `init` reports failure without touching the
element; used to exercise the `not_supported` branch of the chain
function, which the two shipped triples (whose `init`s always return
`TRUE`) never reach. -/
def failingOps : BackendOps :=
  { init := fun f => (false, f)
  , free := fun f => f
  , encode := fun _ f _ => some (Flow.ok, { offset := 0, segments := [] }, f, false) }

/-! Helper lemmas. -/

/-- A completed `zlib_encode` call returns either `GST_FLOW_OK` or
`GST_FLOW_EOS`. -/
lemma zlib_encode_flow (trace : List DecodeStep) (f : GstGzdec) (len : Nat)
    (fl : Flow) (buf : OutBuf) (f' : GstGzdec) (t : Bool)
    (h : zlib_encode trace f len = some (fl, buf, f', t)) :
    fl = Flow.ok ∨ fl = Flow.eos := by
  unfold zlib_encode at h
  dsimp only [] at h
  rcases hl : zlibDrainLoop trace
      { avail_in := len, total_out := f.zlib_stream.total_out } [] Code.ok with
    _ | ⟨st1, segs, status, torn⟩
  · rw [hl] at h; exact absurd h (by simp)
  · rw [hl] at h
    simp only [] at h
    split at h
    · simp only [Option.some.injEq, Prod.mk.injEq] at h
      exact Or.inl h.1.symm
    · split at h
      · simp only [Option.some.injEq, Prod.mk.injEq] at h
        exact Or.inr h.1.symm
      · simp only [Option.some.injEq, Prod.mk.injEq] at h
        exact Or.inl h.1.symm

/-- A completed `bzlib_encode` call returns `GST_FLOW_OK`, `GST_FLOW_EOS`
or `GST_FLOW_ERROR` — never `GST_FLOW_NOT_NEGOTIATED`. -/
lemma bzlib_encode_flow (trace : List DecodeStep) (f : GstGzdec) (len : Nat)
    (fl : Flow) (buf : OutBuf) (f' : GstGzdec) (t : Bool)
    (h : bzlib_encode trace f len = some (fl, buf, f', t)) :
    fl = Flow.ok ∨ fl = Flow.eos ∨ fl = Flow.error := by
  unfold bzlib_encode at h
  dsimp only [] at h
  rcases hl : bzlibDrainLoop trace
      { avail_in := len, total_out := f.bzlib_stream.total_out } [] Code.ok with
    _ | ⟨st1, segs, status, torn⟩
  · rw [hl] at h; exact absurd h (by simp)
  · rw [hl] at h
    simp only [] at h
    split at h
    · simp only [Option.some.injEq, Prod.mk.injEq] at h
      exact Or.inr (Or.inr h.1.symm)
    · split at h
      · simp only [Option.some.injEq, Prod.mk.injEq] at h
        exact Or.inr (Or.inl h.1.symm)
      · simp only [Option.some.injEq, Prod.mk.injEq] at h
        exact Or.inl h.1.symm

/-- Once stuck on zero-progress `Z_BUF_ERROR` with one unconsumed input
byte, the zlib drain loop stays stuck whatever fuel it is given. -/
lemma zlibDrainLoop_stuck (n : Nat) :
    ∀ segs : List Nat,
      zlibDrainLoop (List.replicate n ⟨0, 0, Code.buf_error⟩) ⟨1, 0⟩ segs
        Code.buf_error = none := by
  induction n with
  | zero => intro segs; rfl
  | succ n ih =>
    intro segs
    rw [List.replicate_succ]
    rw [zlibDrainLoop]
    simp only [reduceIte]
    exact ih (segs ++ [min 0 OUT_BUF_SIZE])

/-- Invariant of the zlib drain loop on runs that do not take the error
path: every appended segment is at most `OUT_BUF_SIZE`, and the stream's
`total_out` grows by exactly the sum of the appended segment lengths. -/
lemma zlibDrainLoop_sound : ∀ (trace : List DecodeStep) (st : StreamState)
    (segs : List Nat) (status : Code) (st' : StreamState) (segs' : List Nat)
    (c : Code),
    zlibDrainLoop trace st segs status = some (st', segs', c, false) →
    (∀ s ∈ segs', s ∈ segs ∨ s ≤ OUT_BUF_SIZE) ∧
      st'.total_out + segs.sum = st.total_out + segs'.sum := by
  intro trace
  induction trace with
  | nil =>
    intro st segs status st' segs' c h
    rw [zlibDrainLoop] at h
    split at h
    · exact absurd h (by simp)
    · simp only [Option.some.injEq, Prod.mk.injEq] at h
      obtain ⟨h1, h2, -, -⟩ := h
      subst h1; subst h2
      exact ⟨fun s hs => Or.inl hs, rfl⟩
  | cons step rest ih =>
    intro st segs status st' segs' c h
    rw [zlibDrainLoop] at h
    split at h
    · simp only [] at h
      split at h
      · simp only [Option.some.injEq, Prod.mk.injEq] at h
        exact absurd h.2.2.2 (by simp)
      · obtain ⟨hmem, hsum⟩ := ih _ _ _ _ _ _ h
        constructor
        · intro s hs
          rcases hmem s hs with hins | hle
          · rcases List.mem_append.mp hins with h1 | h1
            · exact Or.inl h1
            · refine Or.inr ?_
              have hseq : s = min step.produced OUT_BUF_SIZE := by
                simpa using h1
              exact hseq ▸ min_le_right _ _
          · exact Or.inr hle
        · simp only [List.sum_append, List.sum_cons, List.sum_nil] at hsum ⊢
          omega
    · simp only [Option.some.injEq, Prod.mk.injEq] at h
      obtain ⟨h1, h2, -, -⟩ := h
      subst h1; subst h2
      exact ⟨fun s hs => Or.inl hs, rfl⟩

/-- Invariant of the bzlib drain loop on runs that do not take the error
path: same bookkeeping as the zlib loop. -/
lemma bzlibDrainLoop_sound : ∀ (trace : List DecodeStep) (st : StreamState)
    (segs : List Nat) (status : Code) (st' : StreamState) (segs' : List Nat)
    (c : Code),
    bzlibDrainLoop trace st segs status = some (st', segs', c, false) →
    (∀ s ∈ segs', s ∈ segs ∨ s ≤ OUT_BUF_SIZE) ∧
      st'.total_out + segs.sum = st.total_out + segs'.sum := by
  intro trace
  induction trace with
  | nil =>
    intro st segs status st' segs' c h
    rw [bzlibDrainLoop] at h
    split at h
    · exact absurd h (by simp)
    · simp only [Option.some.injEq, Prod.mk.injEq] at h
      obtain ⟨h1, h2, -, -⟩ := h
      subst h1; subst h2
      exact ⟨fun s hs => Or.inl hs, rfl⟩
  | cons step rest ih =>
    intro st segs status st' segs' c h
    rw [bzlibDrainLoop] at h
    split at h
    · simp only [] at h
      split at h
      · obtain ⟨hmem, hsum⟩ := ih _ _ _ _ _ _ h
        constructor
        · intro s hs
          rcases hmem s hs with hins | hle
          · rcases List.mem_append.mp hins with h1 | h1
            · exact Or.inl h1
            · refine Or.inr ?_
              have hseq : s = min step.produced OUT_BUF_SIZE := by
                simpa using h1
              exact hseq ▸ min_le_right _ _
          · exact Or.inr hle
        · simp only [List.sum_append, List.sum_cons, List.sum_nil] at hsum ⊢
          omega
      · simp only [Option.some.injEq, Prod.mk.injEq] at h
        exact absurd h.2.2.2 (by simp)
    · simp only [Option.some.injEq, Prod.mk.injEq] at h
      obtain ⟨h1, h2, -, -⟩ := h
      subst h1; subst h2
      exact ⟨fun s hs => Or.inl hs, rfl⟩

/-! Claim theorems. -/

/-- Claim C1.  The claim requires every pushed buffer's `offset` to come
from the active back-end's own cumulative counter, with
`O_0 = 0` and `O_1 = O_0 + L_0`.  On a bzip2 session this fails:
`bzlib_encode` stamps `GST_BUFFER_OFFSET` from `zlib_stream.total_out`
(gstgzdec.c line 401).  After a first 5-byte buffer decompresses to 10
bytes (`L_0 = 10`, bzip2 counter = 10, first buffer offset `O_0 = 0`),
the second buffer is stamped `offset = 0` — the stale gzip counter —
instead of the required `O_1 = 10`. -/
theorem c1_theorem :
    (gst_gzdec_chain [⟨5, 10, Code.ok⟩] bzSession 5).map
        (fun r => (r.pushedBuf, r.filter)) =
      some (some { offset := 0, segments := [10] }, bzSessionAfter1) ∧
    bzSessionAfter1.bzlib_stream.total_out = 10 ∧
    (gst_gzdec_chain [⟨5, 7, Code.ok⟩] bzSessionAfter1 5).map
        (fun r => r.pushedBuf) =
      some (some { offset := 0, segments := [7] }) := by
  decide

/-- Claim C2.  The claim says a decode `Error(code)` makes `process`
return the error classification, tears the decoder down, and marks the
session uninitialized.  On the code: with an in-progress session and a
1-byte input whose decode step reports a fatal code, the gzip path tears
the decoder down (`inflateEnd`) but returns `GST_FLOW_OK` (the local
`ret` is never assigned) and leaves `in_progress` TRUE; the bzip2 path
returns `GST_FLOW_ERROR` but also leaves `in_progress` TRUE. -/
theorem c2_theorem :
    (gst_gzdec_chain [⟨0, 0, Code.fatal⟩] gzLiveSession 1).map
        (fun r => (r.ret, r.encodeTornDown, r.filter.in_progress)) =
      some (Flow.ok, true, true) ∧
    (gst_gzdec_chain [⟨0, 0, Code.fatal⟩] bzLiveSession 1).map
        (fun r => (r.ret, r.encodeTornDown, r.filter.in_progress)) =
      some (Flow.error, true, true) := by
  decide

/-- Claim C3.  The claim says that on back-end `End` the session is
finalized, an end-of-stream event is pushed downstream, and `process`
returns `Ok`.  On the code: when the decode step reports the stream end,
the chain function does call `free_encoder` and clear `in_progress`, but
it pushes no end-of-stream event (the source contains no
`gst_pad_push_event` call at all) and returns `GST_FLOW_EOS`
(`GST_FLOW_CUSTOM_SUCCESS`), not `GST_FLOW_OK`. -/
theorem c3_theorem :
    (gst_gzdec_chain [⟨1, 3, Code.stream_end⟩] gzLiveSession 1).map
        (fun r => (r.ret, r.freeCalled, r.filter.in_progress, r.eosEventPushed)) =
      some (Flow.eos, true, false, false) := by
  decide

/-- Claim C4, counterexample.  A decode step returning `Z_BUF_ERROR` with
zero progress (nothing consumed, nothing produced) while one input byte
remains does not exit the drain loop: the loop guard
`avail_in > 0 && status != Z_STREAM_END` is still true after the
iteration, so a one-step trace leaves the loop still running (`none`)
rather than finished, contradicting "the drain loop exits on that
iteration". -/
theorem c4_counterexample :
    zlibDrainLoop [⟨0, 0, Code.buf_error⟩] ⟨1, 0⟩ [] Code.ok = none := by
  decide

/-- Claim C4 as amended: a `More`-with-zero-progress step does not exit
the drain loop of `zlib_encode`; the loop exits only when the remaining
input is zero, on `Z_STREAM_END`, or on a fatal error.  Consequently, if
the decoder keeps reporting zero-progress `Z_BUF_ERROR` on one remaining
input byte, the loop never terminates: it exhausts any amount of decode
fuel. -/
theorem c4_amended_theorem (n : Nat) :
    zlibDrainLoop (List.replicate n ⟨0, 0, Code.buf_error⟩) ⟨1, 0⟩ []
      Code.ok = none := by
  cases n with
  | zero => rfl
  | succ n =>
    rw [List.replicate_succ]
    rw [zlibDrainLoop]
    simp only [reduceIte]
    exact zlibDrainLoop_stuck n _

/-- Claim C5, counterexample.  A format announcement that arrives while
the session is initialized (`in_progress = TRUE`) is not rejected: the
caps handler performs no `in_progress` check, accepts the announcement
(returns TRUE) and rebinds the back-end from gzip to bzip2 mid-stream. -/
theorem c5_counterexample :
    gzLiveSession.in_progress = true ∧
    gst_gzdec_sink_event_caps "application/x-bzip2" gzLiveSession =
      (true, { gzLiveSession with backend := Backend.bzip2 }) := by
  decide

/-- Claim C5 as amended: the caps handler processes format announcements
regardless of the session's initialization state — a recognized label
always rebinds the back-end, even mid-stream, and only unrecognized
labels are rejected (without effect). -/
theorem c5_amended_theorem (f : GstGzdec) :
    gst_gzdec_sink_event_caps "application/x-gzip" f =
      (true, { f with backend := Backend.gzip }) ∧
    gst_gzdec_sink_event_caps "application/x-bzip2" f =
      (true, { f with backend := Backend.bzip2 }) ∧
    gst_gzdec_sink_event_caps "application/x-7z" f = (false, f) :=
  ⟨rfl, rfl, rfl⟩

/-- Claim C6: `gst_gzdec_chain` never returns
`GST_FLOW_NOT_NEGOTIATED`, because both installed `init_encoder`
implementations discard the native init return value and report success
unconditionally, making the `not_supported` branch unreachable. -/
theorem c6_theorem (trace : List DecodeStep) (f : GstGzdec) (len : Nat) :
    (gst_gzdec_chain trace f len).all
      (fun r => r.ret != Flow.not_negotiated) = true := by
  unfold gst_gzdec_chain gst_gzdec_chain_gen
  cases hb : f.backend
  case gzip =>
    have hinit : (if f.in_progress then (true, f) else zlib_init_encoder f) =
        (true, (if f.in_progress then (true, f) else zlib_init_encoder f).2) := by
      cases f.in_progress <;> rfl
    rw [show backendOps Backend.gzip =
        { init := zlib_init_encoder, free := zlib_free_encoder,
          encode := zlib_encode } from rfl]
    dsimp only []
    rw [hinit]
    dsimp only []
    rcases hz : zlib_encode trace _ len with _ | ⟨fl, buf, f3, t⟩
    · simp
    · rcases zlib_encode_flow _ _ _ _ _ _ _ hz with h | h <;> subst h <;> simp
  case bzip2 =>
    have hinit : (if f.in_progress then (true, f) else bzlib_init_encoder f) =
        (true, (if f.in_progress then (true, f) else bzlib_init_encoder f).2) := by
      cases f.in_progress <;> rfl
    rw [show backendOps Backend.bzip2 =
        { init := bzlib_init_encoder, free := bzlib_free_encoder,
          encode := bzlib_encode } from rfl]
    dsimp only []
    rw [hinit]
    dsimp only []
    rcases hz : bzlib_encode trace _ len with _ | ⟨fl, buf, f3, t⟩
    · simp
    · rcases bzlib_encode_flow _ _ _ _ _ _ _ hz with h | h | h <;>
        subst h <;> simp

/-- Claim C7, counterexample.  On a zero-length input buffer the drain
loop is skipped and the output container holds no segments, yet the
chain function still hands it to `gst_pad_push` (gstgzdec.c line 192 is
unconditional): the push is not skipped. -/
theorem c7_counterexample :
    (gst_gzdec_chain [] gst_gzdec_init_filter 0).map (fun r => r.pushedBuf) =
      some (some { offset := 0, segments := [] }) := by
  decide

/-- Claim C7 as amended: the assembled output container is pushed
downstream on every completed `process` call — unconditionally, even
when it holds no segments. -/
theorem c7_amended_theorem (trace : List DecodeStep) (f : GstGzdec) (len : Nat) :
    (gst_gzdec_chain trace f len).all (fun r => r.pushedBuf.isSome) = true := by
  unfold gst_gzdec_chain gst_gzdec_chain_gen
  cases hb : f.backend
  case gzip =>
    have hinit : (if f.in_progress then (true, f) else zlib_init_encoder f) =
        (true, (if f.in_progress then (true, f) else zlib_init_encoder f).2) := by
      cases f.in_progress <;> rfl
    rw [show backendOps Backend.gzip =
        { init := zlib_init_encoder, free := zlib_free_encoder,
          encode := zlib_encode } from rfl]
    dsimp only []
    rw [hinit]
    dsimp only []
    rcases hz : zlib_encode trace _ len with _ | ⟨fl, buf, f3, t⟩ <;> simp
  case bzip2 =>
    have hinit : (if f.in_progress then (true, f) else bzlib_init_encoder f) =
        (true, (if f.in_progress then (true, f) else bzlib_init_encoder f).2) := by
      cases f.in_progress <;> rfl
    rw [show backendOps Backend.bzip2 =
        { init := bzlib_init_encoder, free := bzlib_free_encoder,
          encode := bzlib_encode } from rfl]
    dsimp only []
    rw [hinit]
    dsimp only []
    rcases hz : bzlib_encode trace _ len with _ | ⟨fl, buf, f3, t⟩ <;> simp

/-- Claim C8, counterexample.  A drain-loop iteration whose decode step
consumes the remaining input byte but produces nothing still appends its
(zero-length) segment to the output container: the source's
`gst_buffer_append_memory` call is unconditional, with no
`produced > 0` guard. -/
theorem c8_counterexample :
    (zlib_encode [⟨1, 0, Code.ok⟩] gzLiveSession 1).map
        (fun r => r.2.1.segments) = some [0] := by
  decide

/-- Claim C8 as amended: in every drain-loop iteration the fresh segment
is shrunk to the decode step's produced byte count — so every segment of
a completed, non-failing `encode` call is at most `OUT_BUF_SIZE` — and
the back-end's `total_out` grows by exactly the produced count, i.e. by
the buffer's total payload over the call; but segments are appended
unconditionally, including zero-length ones when `produced = 0`. -/
theorem c8_amended_theorem :
    (∀ (trace : List DecodeStep) (f : GstGzdec) (len : Nat) (fl : Flow)
        (buf : OutBuf) (f' : GstGzdec),
        zlib_encode trace f len = some (fl, buf, f', false) →
        (∀ s ∈ buf.segments, s ≤ OUT_BUF_SIZE) ∧
          f'.zlib_stream.total_out =
            f.zlib_stream.total_out + buf.segments.sum) ∧
    (∀ (trace : List DecodeStep) (f : GstGzdec) (len : Nat) (fl : Flow)
        (buf : OutBuf) (f' : GstGzdec),
        bzlib_encode trace f len = some (fl, buf, f', false) →
        (∀ s ∈ buf.segments, s ≤ OUT_BUF_SIZE) ∧
          f'.bzlib_stream.total_out =
            f.bzlib_stream.total_out + buf.segments.sum) := by
  constructor
  · intro trace f len fl buf f' h
    unfold zlib_encode at h
    dsimp only [] at h
    rcases hl : zlibDrainLoop trace
        { avail_in := len, total_out := f.zlib_stream.total_out } [] Code.ok with
      _ | ⟨st1, segs, status, torn⟩
    · rw [hl] at h; exact absurd h (by simp)
    · rw [hl] at h
      have htorn : torn = false := by
        by_contra hne
        rw [Bool.not_eq_false] at hne
        subst hne
        simp only [reduceIte, Option.some.injEq, Prod.mk.injEq] at h
        exact absurd h.2.2.2 (by simp)
      subst htorn
      obtain ⟨hmem, hsum⟩ := zlibDrainLoop_sound _ _ _ _ _ _ _ hl
      have hbuf : buf.segments = segs ∧ f'.zlib_stream = st1 := by
        simp only [Bool.false_eq_true, reduceIte] at h
        split at h <;>
          · simp only [Option.some.injEq, Prod.mk.injEq] at h
            obtain ⟨-, h2, h3, -⟩ := h
            subst h2; subst h3
            exact ⟨rfl, rfl⟩
      obtain ⟨hseg, hst⟩ := hbuf
      constructor
      · intro s hs
        rw [hseg] at hs
        rcases hmem s hs with hc | hc
        · exact absurd hc (List.not_mem_nil s)
        · exact hc
      · rw [hseg, hst]
        simpa using hsum
  · intro trace f len fl buf f' h
    unfold bzlib_encode at h
    dsimp only [] at h
    rcases hl : bzlibDrainLoop trace
        { avail_in := len, total_out := f.bzlib_stream.total_out } [] Code.ok with
      _ | ⟨st1, segs, status, torn⟩
    · rw [hl] at h; exact absurd h (by simp)
    · rw [hl] at h
      have htorn : torn = false := by
        by_contra hne
        rw [Bool.not_eq_false] at hne
        subst hne
        simp only [reduceIte, Option.some.injEq, Prod.mk.injEq] at h
        exact absurd h.2.2.2 (by simp)
      subst htorn
      obtain ⟨hmem, hsum⟩ := bzlibDrainLoop_sound _ _ _ _ _ _ _ hl
      have hbuf : buf.segments = segs ∧ f'.bzlib_stream = st1 := by
        simp only [Bool.false_eq_true, reduceIte] at h
        split at h <;>
          · simp only [Option.some.injEq, Prod.mk.injEq] at h
            obtain ⟨-, h2, h3, -⟩ := h
            subst h2; subst h3
            exact ⟨rfl, rfl⟩
      obtain ⟨hseg, hst⟩ := hbuf
      constructor
      · intro s hs
        rw [hseg] at hs
        rcases hmem s hs with hc | hc
        · exact absurd hc (List.not_mem_nil s)
        · exact hc
      · rw [hseg, hst]
        simpa using hsum

/-- Witness for the amended C8 theorem: a one-iteration gzip call that
consumes 1 byte and produces 5, at which the hypotheses hold. -/
theorem c8_witness :
    (∀ s ∈ (OutBuf.mk 0 [5]).segments, s ≤ OUT_BUF_SIZE) ∧
    ({ gzLiveSession with
        zlib_stream := { avail_in := 0, total_out := 5 } } :
        GstGzdec).zlib_stream.total_out =
      gzLiveSession.zlib_stream.total_out + (OutBuf.mk 0 [5]).segments.sum :=
  c8_amended_theorem.1 [⟨1, 5, Code.ok⟩] gzLiveSession 1 Flow.ok
    (OutBuf.mk 0 [5])
    { gzLiveSession with zlib_stream := { avail_in := 0, total_out := 5 } }
    (by decide)

/-- Claim C9: when the installed back-end's `init_encoder` fails on an
uninitialized session, `gst_gzdec_chain` takes the `not_supported`
branch: it releases the input buffer, pushes nothing downstream, returns
`GST_FLOW_NOT_NEGOTIATED`, and leaves the element state unchanged (still
uninitialized).  Stated over the chain function generic in the
function-pointer triple, since the two shipped `init_encoder`s always
report success (claim C6). -/
theorem c9_theorem (ops : BackendOps) (trace : List DecodeStep)
    (f : GstGzdec) (len : Nat)
    (hip : f.in_progress = false) (hinit : ops.init f = (false, f)) :
    gst_gzdec_chain_gen ops trace f len =
      some { ret := Flow.not_negotiated, pushedBuf := none,
             eosEventPushed := false, inputReleased := true,
             freeCalled := false, encodeTornDown := false, filter := f } := by
  unfold gst_gzdec_chain_gen
  rw [hip]
  simp only [Bool.false_eq_true, reduceIte]
  rw [hinit]

/-- Witness for C9: a triple whose `init` fails on a fresh element. -/
theorem c9_witness :
    gst_gzdec_chain_gen failingOps [] gst_gzdec_init_filter 0 =
      some { ret := Flow.not_negotiated, pushedBuf := none,
             eosEventPushed := false, inputReleased := true,
             freeCalled := false, encodeTornDown := false,
             filter := gst_gzdec_init_filter } :=
  c9_theorem failingOps [] gst_gzdec_init_filter 0 rfl rfl

/-- Claim C10: a format announcement whose content-type label is neither
`application/x-gzip` nor `application/x-bzip2` is rejected (the handler
returns FALSE) with no state change, and before any announcement the
default back-end installed by `gst_gzdec_init` is gzip. -/
theorem c10_theorem (capsName : String) (f : GstGzdec)
    (h1 : capsName ≠ "application/x-gzip")
    (h2 : capsName ≠ "application/x-bzip2") :
    gst_gzdec_sink_event_caps capsName f = (false, f) ∧
    gst_gzdec_init_filter.backend = Backend.gzip := by
  constructor
  · unfold gst_gzdec_sink_event_caps
    rw [if_neg h1, if_neg h2]
  · rfl

/-- Witness for C10 at the unknown label `application/x-7z`. -/
theorem c10_witness :
    gst_gzdec_sink_event_caps "application/x-7z" gst_gzdec_init_filter =
      (false, gst_gzdec_init_filter) ∧
    gst_gzdec_init_filter.backend = Backend.gzip :=
  c10_theorem "application/x-7z" gst_gzdec_init_filter
    (by decide) (by decide)

end Gzdec
